import Mathlib

/-!
Verification of the internship-selection platform core (src/app2.py).

The Python source keeps all mutable state in `st.session_state`:
`shortlisted : set`, `rejected : set`, `remarks : dict`,
`contact_status : dict`, `interview_scheduled : dict`, `ratings : dict`.
We embed that state as the structure `StatusStore` below, Python sets as
`Finset Nat` and Python dicts as insertion-ordered association lists
(updating an existing key rewrites it in place, a new key is appended —
exactly the observable behaviour of a Python `dict`).
-/

namespace App2

/-- One remark entry: `{'timestamp': ..., 'remark': ...}` (app2.py lines 167-170). -/
structure Remark where
  timestamp : String
  text : String
deriving DecidableEq, Repr

/-- Association-list model of a Python `dict` keyed by candidate id:
`k in m` (key membership test). -/
def mapHasKey {α : Type} (m : List (Nat × α)) (k : Nat) : Bool :=
  m.any (fun p => p.1 == k)

/-- Read `m.get(k, d)` on the dict model. -/
def mapGetD {α : Type} (m : List (Nat × α)) (k : Nat) (d : α) : α :=
  (m.lookup k).getD d

/-- Write `m[k] = v` on the dict model: rewrite the key in place if present,
otherwise append (insertion order, as in a Python dict). -/
def mapSet {α : Type} (m : List (Nat × α)) (k : Nat) (v : α) : List (Nat × α) :=
  if mapHasKey m k then m.map (fun p => if p.1 == k then (k, v) else p)
  else m ++ [(k, v)]

/-- Delete `del m[k]` on the dict model. -/
def mapDel {α : Type} (m : List (Nat × α)) (k : Nat) : List (Nat × α) :=
  m.filter (fun p => p.1 != k)

/-- The mutable session state of app2.py (lines 109-122). -/
structure StatusStore where
  shortlisted : Finset Nat
  rejected : Finset Nat
  remarks : List (Nat × List Remark)
  contact_status : List (Nat × String)
  interview_scheduled : List (Nat × String)
  ratings : List (Nat × Nat)
deriving DecidableEq

/-- The initial (empty) session state (app2.py lines 109-122). -/
def initialStatus : StatusStore :=
  { shortlisted := ∅, rejected := ∅, remarks := [], contact_status := [],
    interview_scheduled := [], ratings := [] }

/-- Function `get_status` (app2.py lines 150-157). -/
def get_status (s : StatusStore) (id : Nat) : String :=
  if id ∈ s.shortlisted then "✅ Shortlisted"
  else if id ∈ s.rejected then "❌ Rejected"
  else "⏳ Pending"

/-- Function `get_contact_status` (app2.py lines 159-161):
`st.session_state.contact_status.get(row_id, "Not Contacted")`. -/
def get_contact_status (s : StatusStore) (id : Nat) : String :=
  mapGetD s.contact_status id "Not Contacted"

/-- Read `st.session_state.ratings.get(row_id, 0)` (app2.py lines 458, 571, 731). -/
def ratingOf (s : StatusStore) (id : Nat) : Nat :=
  mapGetD s.ratings id 0

/-- Function `get_remarks` (app2.py lines 172-174). -/
def get_remarks (s : StatusStore) (id : Nat) : List Remark :=
  mapGetD s.remarks id []

/-- Read `st.session_state.interview_scheduled.get(x, 'Not Scheduled')`
(app2.py line 1115). -/
def interviewDateOf (s : StatusStore) (id : Nat) : String :=
  mapGetD s.interview_scheduled id "Not Scheduled"

/-- Shortlist action (app2.py lines 702-705):
`shortlisted.add(row_id); rejected.discard(row_id)`. -/
def shortlist (s : StatusStore) (id : Nat) : StatusStore :=
  { s with shortlisted := insert id s.shortlisted, rejected := s.rejected.erase id }

/-- Reject action (app2.py lines 708-711):
`rejected.add(row_id); shortlisted.discard(row_id)`. -/
def reject (s : StatusStore) (id : Nat) : StatusStore :=
  { s with rejected := insert id s.rejected, shortlisted := s.shortlisted.erase id }

/-- "Shortlist All Filtered" (app2.py lines 893-898): shortlist every id of the
given subset, in order. The rule-based auto-shortlist actions (lines 850-888)
perform the same per-row update on the rows satisfying their predicate, so they
are instances of this operation applied to a sub-list. -/
def shortlistAll (s : StatusStore) (ids : List Nat) : StatusStore :=
  ids.foldl shortlist s

/-- "Reject All Filtered" (app2.py lines 900-905). -/
def rejectAll (s : StatusStore) (ids : List Nat) : StatusStore :=
  ids.foldl reject s

/-- One step of "Reset All Filtered to Pending" (app2.py lines 908-910):
`shortlisted.discard(id); rejected.discard(id)`. -/
def resetToPending (s : StatusStore) (id : Nat) : StatusStore :=
  { s with shortlisted := s.shortlisted.erase id, rejected := s.rejected.erase id }

/-- "Reset All Filtered to Pending" (app2.py lines 907-912). -/
def resetPendingAll (s : StatusStore) (ids : List Nat) : StatusStore :=
  ids.foldl resetToPending s

/-- "Reset All Selections" button (app2.py lines 1083-1087):
`shortlisted = set(); rejected = set()` — nothing else is touched. -/
def resetAllSelections (s : StatusStore) : StatusStore :=
  { s with shortlisted := ∅, rejected := ∅ }

/-- "Upload New File" button (app2.py lines 1127-1134): full wipe of every
status structure. -/
def clearAllStatus (_ : StatusStore) : StatusStore :=
  initialStatus

/-- Contact-status selectbox handler (app2.py lines 716-725): writes
`contact_status[row_id] = new_contact` only when the new value differs from the
current one (the current one read with default "Not Contacted"). -/
def contactSelectHandler (s : StatusStore) (id : Nat) (v : String) : StatusStore :=
  if v = get_contact_status s id then s
  else { s with contact_status := mapSet s.contact_status id v }

/-- Bulk "Mark All ... as <status>" actions (app2.py lines 806-816): write the
given contact status for every id of the subset. -/
def markAllContact (s : StatusStore) (ids : List Nat) (v : String) : StatusStore :=
  ids.foldl (fun t i => { t with contact_status := mapSet t.contact_status i v }) s

/-- Rating selectbox handler (app2.py lines 728-737): writes
`ratings[row_id] = new_rating` when it differs from the current one. -/
def setRatingHandler (s : StatusStore) (id : Nat) (r : Nat) : StatusStore :=
  if r = ratingOf s id then s
  else { s with ratings := mapSet s.ratings id r }

/-- Static qualification-to-rating table of "Auto-Rate by Qualification"
(app2.py lines 915-921). -/
def rating_map : List (String × Nat) :=
  [("Engineer", 5), ("Graduate", 4), ("Post Graduate", 5), ("Diploma", 3),
   ("Intermediate", 2)]

/-- "Auto-Rate by Qualification" (app2.py lines 914-929), applied to the
(id, qualification) pairs of the current subset: rate the mapped
qualifications, leave the rest untouched. -/
def autoRateAll (s : StatusStore) (rows : List (Nat × String)) : StatusStore :=
  rows.foldl (fun t p =>
    match rating_map.lookup p.2 with
    | some r => { t with ratings := mapSet t.ratings p.1 r }
    | none => t) s

/-- "Schedule" interview button (app2.py lines 746-749). -/
def scheduleInterview (s : StatusStore) (id : Nat) (d : String) : StatusStore :=
  { s with interview_scheduled := mapSet s.interview_scheduled id d }

/-- "Cancel" interview button (app2.py lines 753-755):
`del interview_scheduled[row_id]`. -/
def cancelInterview (s : StatusStore) (id : Nat) : StatusStore :=
  { s with interview_scheduled := mapDel s.interview_scheduled id }

/-- Function `add_remark` (app2.py lines 163-170): unconditionally appends the remark —
the function itself performs no validation of the text. -/
def add_remark (s : StatusStore) (id : Nat) (text now : String) : StatusStore :=
  { s with remarks := mapSet s.remarks id (get_remarks s id ++ [⟨now, text⟩]) }

/-- Feedback shown by a UI handler: a success message, an error message, or
nothing at all. -/
inductive Feedback where
  | success
  | errorMsg
  | silent
deriving DecidableEq, Repr

/-- Model of Python's `str.strip()`: drop whitespace from both ends. -/
def pyStrip (s : String) : String :=
  String.mk (((s.toList.dropWhile Char.isWhitespace).reverse.dropWhile
    Char.isWhitespace).reverse)

/-- "Save" remark button handler (app2.py lines 669-673):
`if new_remark.strip(): add_remark(row_id, new_remark); st.success(...)` —
when the stripped text is empty the branch is skipped entirely and no message
of any kind is emitted. -/
def save_remark_button (s : StatusStore) (id : Nat) (text now : String) :
    StatusStore × Feedback :=
  if pyStrip text = "" then (s, Feedback.silent)
  else (add_remark s id text now, Feedback.success)

/-- One step of the session: any of the mutating UI actions of app2.py other
than the "Upload New File" full wipe. -/
inductive NonWipeStep : StatusStore → StatusStore → Prop where
  | shortlist (s : StatusStore) (id : Nat) : NonWipeStep s (shortlist s id)
  | reject (s : StatusStore) (id : Nat) : NonWipeStep s (reject s id)
  | shortlistAll (s : StatusStore) (ids : List Nat) :
      NonWipeStep s (shortlistAll s ids)
  | rejectAll (s : StatusStore) (ids : List Nat) :
      NonWipeStep s (rejectAll s ids)
  | resetPendingAll (s : StatusStore) (ids : List Nat) :
      NonWipeStep s (resetPendingAll s ids)
  | contactSelect (s : StatusStore) (id : Nat) (v : String) :
      NonWipeStep s (contactSelectHandler s id v)
  | markAllContact (s : StatusStore) (ids : List Nat) (v : String) :
      NonWipeStep s (markAllContact s ids v)
  | setRating (s : StatusStore) (id : Nat) (r : Nat) :
      NonWipeStep s (setRatingHandler s id r)
  | autoRate (s : StatusStore) (rows : List (Nat × String)) :
      NonWipeStep s (autoRateAll s rows)
  | schedule (s : StatusStore) (id : Nat) (d : String) :
      NonWipeStep s (scheduleInterview s id d)
  | cancel (s : StatusStore) (id : Nat) : NonWipeStep s (cancelInterview s id)
  | saveRemark (s : StatusStore) (id : Nat) (text now : String) :
      NonWipeStep s (save_remark_button s id text now).1
  | resetAll (s : StatusStore) : NonWipeStep s (resetAllSelections s)

/-- One step of the session: any mutating UI action, including the
"Upload New File" full wipe. -/
def SessionStep (s t : StatusStore) : Prop :=
  NonWipeStep s t ∨ t = clearAllStatus s

/-- A status-store state reachable from the empty initial state through the
UI actions of app2.py. -/
def Reachable (s : StatusStore) : Prop :=
  Relation.ReflTransGen SessionStep initialStatus s

/-! ## Candidate records, derived age, filtering and sorting -/

/-- A candidate row: the stable integer id assigned at load time
(`df['ID'] = range(len(df))`, app2.py line 130) plus the imported columns as an
ordered column-name/value association list. -/
structure Candidate where
  id : Nat
  fields : List (String × String)
deriving DecidableEq, Repr

/-- Field access in the `row['col']` style (missing column reads as the empty
string). -/
def getField (r : Candidate) (c : String) : String :=
  (r.fields.lookup c).getD ""

/-- A calendar date (year, month, day). -/
structure Date where
  year : Nat
  month : Nat
  day : Nat
deriving DecidableEq, Repr

/-- Model of `pd.to_datetime(s, format='%d-%m-%Y', errors='coerce')`
(app2.py line 141): a string parses exactly when it splits on "-" into three
all-digit components with the day in 1..31 and the month in 1..12; anything
else coerces to NaT, modelled as `none`. -/
def parse_dmy (s : String) : Option Date :=
  match s.splitOn "-" with
  | [d, m, y] =>
    match d.toNat?, m.toNat?, y.toNat? with
    | some dd, some mm, some yy =>
        if 1 ≤ dd ∧ dd ≤ 31 ∧ 1 ≤ mm ∧ mm ≤ 12 then some ⟨yy, mm, dd⟩ else none
    | _, _, _ => none
  | _ => none

/-- Function `calculate_age` (app2.py lines 136-148): `none` on an empty or unparseable
date string; otherwise `today.year - birth.year`, minus one when
`(today.month, today.day) < (birth.month, birth.day)` in the lexicographic
tuple order Python uses. `datetime.now()` is passed in as `today`. -/
def calculate_age (s : String) (today : Date) : Option Int :=
  if s = "" then none
  else
    match parse_dmy s with
    | none => none
    | some b =>
        some ((today.year : Int) - (b.year : Int) -
          (if today.month < b.month ∨ (today.month = b.month ∧ today.day < b.day)
           then 1 else 0))

/-- The column read by the age filter (app2.py line 225). -/
def ageColumn : String := "Your age as on date of application"

/-- The age-filter stage of `apply_filters` (app2.py lines 224-229): when a
minimum or maximum age is set, compute the age of every row and keep the rows
whose age passes each set bound. A pandas comparison of NaN (unparseable age)
with a number is False, so a row with `none` age is dropped by whichever bound
is checked. `min_age`/`max_age` are `None` when unset (a 0 entered in the UI is
mapped to `None`, app2.py lines 378-381). -/
def age_filter (today : Date) (minAge maxAge : Option Nat) (rows : List Candidate) :
    List Candidate :=
  if minAge.isSome || maxAge.isSome then
    let r1 := match minAge with
      | some m => rows.filter (fun r =>
          match calculate_age (getField r ageColumn) today with
          | some a => decide ((m : Int) ≤ a)
          | none => false)
      | none => rows
    match maxAge with
    | some mx => r1.filter (fun r =>
        match calculate_age (getField r ageColumn) today with
        | some a => decide (a ≤ (mx : Int))
        | none => false)
    | none => r1
  else rows

/-- The contact-status filter stage of `apply_filters` (app2.py lines 209-214):
"Contacted" keeps the rows whose id is a key of the contact-status dict
(`isin(contact_status.keys())` — the stored value is irrelevant),
"Not Contacted" keeps the rest, anything else keeps every row. -/
def contact_filter (s : StatusStore) (mode : String) (rows : List Candidate) :
    List Candidate :=
  if mode = "Contacted" then
    rows.filter (fun r => mapHasKey s.contact_status r.id)
  else if mode = "Not Contacted" then
    rows.filter (fun r => !mapHasKey s.contact_status r.id)
  else rows

/-- A dashboard percentage delta `count/total*100` (app2.py lines 470-478).
The Python source divides by `len(df)` with no guard: on an empty dataset the
division raises `ZeroDivisionError`, modelled as `none`. -/
def pct_delta (count total : Nat) : Option ℚ :=
  if total = 0 then none else some ((count : ℚ) * 100 / (total : ℚ))

/-- The "Shortlisted" metric delta (app2.py lines 470-471). -/
def shortlisted_delta (s : StatusStore) (df : List Candidate) : Option ℚ :=
  pct_delta s.shortlisted.card df.length

/-- The "Rejected" metric delta (app2.py lines 473-474). -/
def rejected_delta (s : StatusStore) (df : List Candidate) : Option ℚ :=
  pct_delta s.rejected.card df.length

/-- The "Pending" metric delta (app2.py lines 476-478):
`pending = len(df) - len(shortlisted) - len(rejected)`. -/
def pending_delta (s : StatusStore) (df : List Candidate) : Option ℚ :=
  pct_delta (df.length - s.shortlisted.card - s.rejected.card) df.length

/-- Does `needle` occur as a contiguous run inside `hay`? -/
def listInfix (needle : List Char) : List Char → Bool
  | [] => needle.isEmpty
  | c :: rest => needle.isPrefixOf (c :: rest) || listInfix needle rest

/-- Substring containment, the model of Python's `needle in hay` on strings. -/
def strContains (hay needle : String) : Bool :=
  listInfix needle.toList hay.toList

/-- List `ready_candidates` (app2.py lines 939-941): the shortlisted ids whose id is
a key of the contact-status dict and whose stored status contains the substring
"Interested". -/
def ready_candidates (s : StatusStore) : Finset Nat :=
  s.shortlisted.filter (fun id =>
    mapHasKey s.contact_status id = true ∧
    strContains (get_contact_status s id) "Interested" = true)

/-- The summary report's "Candidates Ready" count (app2.py line 1067) — the
same comprehension as `ready_candidates`, counted. -/
def summary_ready_count (s : StatusStore) : Nat :=
  (s.shortlisted.filter (fun id =>
    mapHasKey s.contact_status id = true ∧
    strContains (get_contact_status s id) "Interested" = true)).card

/-- The column names of a row. -/
def colNames (row : List (String × String)) : List String :=
  row.map (fun p => p.1)

/-- Column assignment `report_df['c'] = v` on the row model (pandas column assignment): overwrite
the column in place if it exists, otherwise append it on the right. -/
def setCol (row : List (String × String)) (c v : String) : List (String × String) :=
  if (row.lookup c).isSome then
    row.map (fun p => if p.1 == c then (c, v) else p)
  else row ++ [(c, v)]

/-- One row of the "Download Full Report" export (app2.py lines 1110-1117):
the original row with the four derived columns Status, Contact_Status, Rating
and Interview_Date assigned. -/
def reportRow (s : StatusStore) (r : Candidate) : List (String × String) :=
  setCol
    (setCol
      (setCol
        (setCol r.fields "Status" (get_status s r.id))
        "Contact_Status" (get_contact_status s r.id))
      "Rating" (toString (ratingOf s r.id)))
    "Interview_Date" (interviewDateOf s r.id)

/-- The full-report export (app2.py lines 1110-1117): one report row per
dataset row, in dataset order. -/
def fullReport (df : List Candidate) (s : StatusStore) :
    List (List (String × String)) :=
  df.map (reportRow s)

/-- Re-reading a field of an exported row (re-import reads the value stored
under the column name). -/
def reimportField (row : List (String × String)) (c : String) : Option String :=
  row.lookup c

/-! ## Helper lemmas -/

theorem foldl_preserve {α : Type} (f : StatusStore → α → StatusStore)
    (P : StatusStore → Prop) (h : ∀ t a, P t → P (f t a)) :
    ∀ (l : List α) (s : StatusStore), P s → P (l.foldl f s) := by
  intro l
  induction l with
  | nil => intro s hs; exact hs
  | cons a l ih => intro s hs; exact ih _ (h _ _ hs)

theorem shortlist_disjoint (s : StatusStore) (id : Nat)
    (h : Disjoint s.shortlisted s.rejected) :
    Disjoint (shortlist s id).shortlisted (shortlist s id).rejected := by
  simp only [shortlist]
  rw [Finset.disjoint_insert_left]
  exact ⟨Finset.not_mem_erase _ _, h.mono_right (Finset.erase_subset _ _)⟩

theorem reject_disjoint (s : StatusStore) (id : Nat)
    (h : Disjoint s.shortlisted s.rejected) :
    Disjoint (reject s id).shortlisted (reject s id).rejected := by
  simp only [reject]
  rw [Finset.disjoint_insert_right]
  exact ⟨Finset.not_mem_erase _ _, h.mono_left (Finset.erase_subset _ _)⟩

theorem resetToPending_disjoint (s : StatusStore) (id : Nat)
    (h : Disjoint s.shortlisted s.rejected) :
    Disjoint (resetToPending s id).shortlisted (resetToPending s id).rejected := by
  simp only [resetToPending]
  exact (h.mono_left (Finset.erase_subset _ _)).mono_right (Finset.erase_subset _ _)

theorem contactSelectHandler_disposition (s : StatusStore) (id : Nat) (v : String) :
    (contactSelectHandler s id v).shortlisted = s.shortlisted ∧
    (contactSelectHandler s id v).rejected = s.rejected := by
  unfold contactSelectHandler
  split <;> exact ⟨rfl, rfl⟩

theorem markAllContact_disposition (ids : List Nat) (v : String) :
    ∀ s : StatusStore, (markAllContact s ids v).shortlisted = s.shortlisted ∧
      (markAllContact s ids v).rejected = s.rejected := by
  induction ids with
  | nil => intro s; exact ⟨rfl, rfl⟩
  | cons a l ih => intro s; simpa only [markAllContact, List.foldl_cons] using ih _

theorem setRatingHandler_disposition (s : StatusStore) (id r : Nat) :
    (setRatingHandler s id r).shortlisted = s.shortlisted ∧
    (setRatingHandler s id r).rejected = s.rejected := by
  unfold setRatingHandler
  split <;> exact ⟨rfl, rfl⟩

theorem autoRateAll_disposition (rows : List (Nat × String)) :
    ∀ s : StatusStore, (autoRateAll s rows).shortlisted = s.shortlisted ∧
      (autoRateAll s rows).rejected = s.rejected := by
  induction rows with
  | nil => intro s; exact ⟨rfl, rfl⟩
  | cons p l ih =>
      intro s
      simp only [autoRateAll, List.foldl_cons]
      rcases h : rating_map.lookup p.2 with _ | r <;>
        simpa only [autoRateAll, h] using ih _

theorem save_remark_button_disposition (s : StatusStore) (id : Nat)
    (text now : String) :
    (save_remark_button s id text now).1.shortlisted = s.shortlisted ∧
    (save_remark_button s id text now).1.rejected = s.rejected := by
  unfold save_remark_button
  split <;> exact ⟨rfl, rfl⟩

theorem reachable_disjoint : ∀ s : StatusStore, Reachable s →
    Disjoint s.shortlisted s.rejected := by
  intro s h
  induction h with
  | refl => simp [initialStatus]
  | tail _ hstep ih =>
      rcases hstep with hnw | hwipe
      · cases hnw with
        | shortlist id => exact shortlist_disjoint _ id ih
        | reject id => exact reject_disjoint _ id ih
        | shortlistAll ids =>
            exact foldl_preserve _ _ shortlist_disjoint ids _ ih
        | rejectAll ids =>
            exact foldl_preserve _ _ reject_disjoint ids _ ih
        | resetPendingAll ids =>
            exact foldl_preserve _ _ resetToPending_disjoint ids _ ih
        | contactSelect id v =>
            rw [(contactSelectHandler_disposition _ id v).1,
              (contactSelectHandler_disposition _ id v).2]
            exact ih
        | markAllContact ids v =>
            rw [(markAllContact_disposition ids v _).1,
              (markAllContact_disposition ids v _).2]
            exact ih
        | setRating id r =>
            rw [(setRatingHandler_disposition _ id r).1,
              (setRatingHandler_disposition _ id r).2]
            exact ih
        | autoRate rows =>
            rw [(autoRateAll_disposition rows _).1, (autoRateAll_disposition rows _).2]
            exact ih
        | schedule id d => exact ih
        | cancel id => exact ih
        | saveRemark id text now =>
            rw [(save_remark_button_disposition _ id text now).1,
              (save_remark_button_disposition _ id text now).2]
            exact ih
        | resetAll => simp [resetAllSelections]
      · subst hwipe; simp [clearAllStatus, initialStatus]

theorem shortlistAll_mem_shortlisted :
    ∀ (ids : List Nat) (s : StatusStore) (id : Nat), id ∈ ids →
      id ∈ (shortlistAll s ids).shortlisted := by
  intro ids
  induction ids with
  | nil => intro s id h; cases h
  | cons a l ih =>
      intro s id h
      rcases List.mem_cons.mp h with rfl | hmem
      · exact foldl_preserve shortlist (fun t => id ∈ t.shortlisted)
          (fun t b hb => Finset.mem_insert_of_mem hb) l (shortlist s id)
          (Finset.mem_insert_self _ _)
      · exact ih _ _ hmem

theorem shortlistAll_not_rejected :
    ∀ (ids : List Nat) (s : StatusStore) (id : Nat), id ∈ ids →
      id ∉ (shortlistAll s ids).rejected := by
  intro ids
  induction ids with
  | nil => intro s id h; cases h
  | cons a l ih =>
      intro s id h
      rcases List.mem_cons.mp h with rfl | hmem
      · exact foldl_preserve shortlist (fun t => id ∉ t.rejected)
          (fun t b hb hmem => hb (Finset.mem_of_mem_erase hmem)) l (shortlist s id)
          (Finset.not_mem_erase _ _)
      · exact ih _ _ hmem

theorem rejectAll_mem_rejected :
    ∀ (ids : List Nat) (s : StatusStore) (id : Nat), id ∈ ids →
      id ∈ (rejectAll s ids).rejected := by
  intro ids
  induction ids with
  | nil => intro s id h; cases h
  | cons a l ih =>
      intro s id h
      rcases List.mem_cons.mp h with rfl | hmem
      · exact foldl_preserve reject (fun t => id ∈ t.rejected)
          (fun t b hb => Finset.mem_insert_of_mem hb) l (reject s id)
          (Finset.mem_insert_self _ _)
      · exact ih _ _ hmem

theorem rejectAll_not_shortlisted :
    ∀ (ids : List Nat) (s : StatusStore) (id : Nat), id ∈ ids →
      id ∉ (rejectAll s ids).shortlisted := by
  intro ids
  induction ids with
  | nil => intro s id h; cases h
  | cons a l ih =>
      intro s id h
      rcases List.mem_cons.mp h with rfl | hmem
      · exact foldl_preserve reject (fun t => id ∉ t.shortlisted)
          (fun t b hb hmem => hb (Finset.mem_of_mem_erase hmem)) l (reject s id)
          (Finset.not_mem_erase _ _)
      · exact ih _ _ hmem

/-! ## Claims -/

/-- C1: in every reachable status-store state the shortlisted and rejected sets
are disjoint; `shortlist id` puts `id` in the shortlisted set and takes it out
of the rejected set, `reject id` does the symmetric update, the bulk
shortlist-all / reject-all actions do the same for every id of the given
subset, and after `shortlist id` followed by `reject id` the disposition of
`id` is Rejected and `id` is not shortlisted. -/
theorem disposition_mutual_exclusivity :
    (∀ s : StatusStore, Reachable s → Disjoint s.shortlisted s.rejected) ∧
    (∀ (s : StatusStore) (id : Nat),
      id ∈ (shortlist s id).shortlisted ∧ id ∉ (shortlist s id).rejected) ∧
    (∀ (s : StatusStore) (id : Nat),
      id ∈ (reject s id).rejected ∧ id ∉ (reject s id).shortlisted) ∧
    (∀ (s : StatusStore) (ids : List Nat) (id : Nat), id ∈ ids →
      id ∈ (shortlistAll s ids).shortlisted ∧ id ∉ (shortlistAll s ids).rejected) ∧
    (∀ (s : StatusStore) (ids : List Nat) (id : Nat), id ∈ ids →
      id ∈ (rejectAll s ids).rejected ∧ id ∉ (rejectAll s ids).shortlisted) ∧
    (∀ (s : StatusStore) (id : Nat),
      get_status (reject (shortlist s id) id) id = "❌ Rejected" ∧
      id ∉ (reject (shortlist s id) id).shortlisted) := by
  refine ⟨reachable_disjoint, ?_, ?_, ?_, ?_, ?_⟩
  · intro s id
    exact ⟨Finset.mem_insert_self _ _, Finset.not_mem_erase _ _⟩
  · intro s id
    exact ⟨Finset.mem_insert_self _ _, Finset.not_mem_erase _ _⟩
  · intro s ids id h
    exact ⟨shortlistAll_mem_shortlisted ids s id h, shortlistAll_not_rejected ids s id h⟩
  · intro s ids id h
    exact ⟨rejectAll_mem_rejected ids s id h, rejectAll_not_shortlisted ids s id h⟩
  · intro s id
    constructor
    · simp [get_status, reject, shortlist, Finset.mem_erase, Finset.mem_insert]
    · exact Finset.not_mem_erase _ _

/-- Closed instance of `disposition_mutual_exclusivity` at concrete inputs. -/
theorem disposition_mutual_exclusivity_witness :
    Disjoint initialStatus.shortlisted initialStatus.rejected ∧
    (0 ∈ (shortlistAll initialStatus [0, 1]).shortlisted ∧
      0 ∉ (shortlistAll initialStatus [0, 1]).rejected) ∧
    (1 ∈ (rejectAll initialStatus [1]).rejected ∧
      1 ∉ (rejectAll initialStatus [1]).shortlisted) ∧
    get_status (reject (shortlist initialStatus 0) 0) 0 = "❌ Rejected" :=
  ⟨disposition_mutual_exclusivity.1 initialStatus Relation.ReflTransGen.refl,
   disposition_mutual_exclusivity.2.2.2.1 initialStatus [0, 1] 0 (by decide),
   disposition_mutual_exclusivity.2.2.2.2.1 initialStatus [1] 1 (by decide),
   (disposition_mutual_exclusivity.2.2.2.2.2 initialStatus 0).1⟩

/-- C7: the "Reset All Selections" action empties the shortlisted and rejected
sets and changes nothing else — every candidate's contact status, rating,
interview date and remark log read identically before and after. -/
theorem resetAll_clears_disposition_only (s : StatusStore) :
    (resetAllSelections s).shortlisted = ∅ ∧
    (resetAllSelections s).rejected = ∅ ∧
    ∀ id : Nat,
      get_contact_status (resetAllSelections s) id = get_contact_status s id ∧
      ratingOf (resetAllSelections s) id = ratingOf s id ∧
      interviewDateOf (resetAllSelections s) id = interviewDateOf s id ∧
      get_remarks (resetAllSelections s) id = get_remarks s id :=
  ⟨rfl, rfl, fun _ => ⟨rfl, rfl, rfl, rfl⟩⟩

/-- Sample candidate used in concrete instances. -/
def cand0 : Candidate :=
  ⟨0, [("Your Full name", "Asha"), ("Gender", "Female"),
       ("Your age as on date of application", "15-03-2000")]⟩

/-- Second sample candidate used in concrete instances. -/
def cand1 : Candidate :=
  ⟨1, [("Your Full name", "Ravi"), ("Gender", "Male"),
       ("Your age as on date of application", "")]⟩

/-- C2 counterexample: over the empty dataset (total = 0) every dashboard
percentage delta is the failing division (`none`), not the claimed 0.0%. -/
theorem empty_dataset_delta_counterexample :
    shortlisted_delta initialStatus [] = none ∧
    rejected_delta initialStatus [] = none ∧
    pending_delta initialStatus [] = none ∧
    (none : Option ℚ) ≠ some 0 := by
  refine ⟨rfl, rfl, rfl, by simp⟩

/-- C2 amended: the dashboard deltas divide by the dataset size with no
divide-by-zero guard — on a dataset with total > 0 each delta is
count / total × 100, and on the empty dataset (total = 0) the computation
fails with a division error (modelled `none`) instead of reporting 0.0%. -/
theorem dashboard_deltas_unguarded (s : StatusStore) (df : List Candidate)
    (h : df.length ≠ 0) :
    shortlisted_delta s df = some ((s.shortlisted.card : ℚ) * 100 / df.length) ∧
    rejected_delta s df = some ((s.rejected.card : ℚ) * 100 / df.length) ∧
    pending_delta s df =
      some (((df.length - s.shortlisted.card - s.rejected.card : Nat) : ℚ) * 100 /
        df.length) ∧
    shortlisted_delta s [] = none ∧ rejected_delta s [] = none ∧
    pending_delta s [] = none := by
  unfold shortlisted_delta rejected_delta pending_delta pct_delta
  simp [h]

/-- Closed instance of `dashboard_deltas_unguarded` at a one-row dataset. -/
theorem dashboard_deltas_unguarded_witness :
    [cand0].length ≠ 0 ∧
    shortlisted_delta initialStatus [cand0] =
      some ((initialStatus.shortlisted.card : ℚ) * 100 / [cand0].length) ∧
    shortlisted_delta initialStatus [] = none :=
  ⟨by decide,
   (dashboard_deltas_unguarded initialStatus [cand0] (by decide)).1,
   (dashboard_deltas_unguarded initialStatus [cand0] (by decide)).2.2.2.1⟩

/-- C3 counterexample: saving a whitespace-only remark leaves the store
unchanged but reports nothing at all — the error the claim requires is never
emitted (the handler has no error branch). -/
theorem whitespace_remark_counterexample :
    save_remark_button initialStatus 0 "   " "2024-01-01 10:00:00" =
      (initialStatus, Feedback.silent) ∧
    Feedback.silent ≠ Feedback.errorMsg := by
  constructor
  · unfold save_remark_button
    rw [if_pos (by decide)]
  · decide

/-- C3 amended: for empty or whitespace-only text the save handler is a silent
no-op — the remark log (and the whole store) is unchanged and the remark is
dropped with no feedback of any kind, neither an error nor a success message;
`add_remark` itself validates nothing and appends unconditionally whenever it
is called. -/
theorem whitespace_remark_silent (s : StatusStore) (id : Nat) (text now : String)
    (h : pyStrip text = "") :
    save_remark_button s id text now = (s, Feedback.silent) ∧
    (save_remark_button s id text now).2 ≠ Feedback.errorMsg ∧
    (save_remark_button s id text now).2 ≠ Feedback.success ∧
    get_remarks (save_remark_button s id text now).1 id = get_remarks s id := by
  have he : save_remark_button s id text now = (s, Feedback.silent) := by
    unfold save_remark_button
    rw [if_pos h]
  refine ⟨he, ?_, ?_, by rw [he]⟩
  · rw [he]; exact fun hc => Feedback.noConfusion hc
  · rw [he]; exact fun hc => Feedback.noConfusion hc

/-- Closed instance of `whitespace_remark_silent` on the text "  ". -/
theorem whitespace_remark_silent_witness :
    pyStrip "  " = "" ∧
    save_remark_button initialStatus 3 "  " "2024-01-01 10:00:00" =
      (initialStatus, Feedback.silent) :=
  ⟨by decide,
   (whitespace_remark_silent initialStatus 3 "  " "2024-01-01 10:00:00" (by decide)).1⟩

/-- Store built by setting candidate 0's contact status to "Email Sent" and
then back to "Not Contacted": the dict keeps the key 0 with the default value. -/
def storeSetBack : StatusStore :=
  contactSelectHandler (contactSelectHandler initialStatus 0 "Email Sent") 0
    "Not Contacted"

/-- C4 counterexample: candidate 0's contact status was set to "Email Sent" and
then back to the default "Not Contacted"; its stored status is the default, yet
the Contacted filter still keeps it (and the Not Contacted filter drops it),
because the filter tests key presence in the contact-status dict, not the
stored value. -/
theorem contact_filter_default_value_counterexample :
    get_contact_status storeSetBack 0 = "Not Contacted" ∧
    contact_filter storeSetBack "Contacted" [cand0] = [cand0] ∧
    contact_filter storeSetBack "Not Contacted" [cand0] = [] := by
  refine ⟨by decide, by decide, by decide⟩

/-- C4 amended: the Contacted filter keeps exactly the rows whose id is a key
of the contact-status dict — whatever value is stored there, including the
default "Not Contacted" written back by the selectbox handler — and the
Not Contacted filter keeps exactly the rows whose id is not a key. -/
theorem contact_filter_key_presence (s : StatusStore) (rows : List Candidate)
    (r : Candidate) :
    (r ∈ contact_filter s "Contacted" rows ↔
      r ∈ rows ∧ mapHasKey s.contact_status r.id = true) ∧
    (r ∈ contact_filter s "Not Contacted" rows ↔
      r ∈ rows ∧ mapHasKey s.contact_status r.id = false) := by
  unfold contact_filter
  constructor
  · rw [if_pos rfl]
    simp [List.mem_filter]
  · rw [if_neg (by decide), if_pos rfl]
    simp [List.mem_filter]

/-- C8: whenever a minimum or a maximum age bound is set, every row whose
birth-date field computes to no age (empty or unparseable in day-month-year
form) is excluded from the age-filter result, regardless of which bound is
set. -/
theorem unparseable_age_excluded (today : Date) (minAge maxAge : Option Nat)
    (rows : List Candidate) (r : Candidate)
    (hset : minAge.isSome ∨ maxAge.isSome)
    (hage : calculate_age (getField r ageColumn) today = none) :
    r ∉ age_filter today minAge maxAge rows := by
  unfold age_filter
  rw [if_pos (by rcases hset with h | h <;> simp [h])]
  rcases maxAge with _ | mx
  · rcases minAge with _ | m
    · simp at hset
    · intro hmem
      rw [List.mem_filter] at hmem
      rw [hage] at hmem
      simp at hmem
  · intro hmem
    rw [List.mem_filter] at hmem
    rw [hage] at hmem
    simp at hmem

/-- Closed instance of `unparseable_age_excluded`: with a minimum age set, the
candidate whose birth-date field is empty is excluded. -/
theorem unparseable_age_excluded_witness :
    ((some 18 : Option Nat).isSome ∨ (none : Option Nat).isSome) ∧
    calculate_age (getField cand1 ageColumn) ⟨2024, 6, 1⟩ = none ∧
    cand1 ∉ age_filter ⟨2024, 6, 1⟩ (some 18) none [cand0, cand1] :=
  ⟨Or.inl (by decide), by decide,
   unparseable_age_excluded ⟨2024, 6, 1⟩ (some 18) none [cand0, cand1] cand1
     (Or.inl (by decide)) (by decide)⟩

/-- Store built by shortlisting candidate 0 and recording the contact status
"Called - Not Interested" for it. -/
def storeNotInterested : StatusStore :=
  contactSelectHandler (shortlist initialStatus 0) 0 "Called - Not Interested"

/-- C6 counterexample: candidate 0 is shortlisted with contact status
"Called - Not Interested", yet it appears in the ready-for-onboarding list and
is counted in the summary report's Candidates Ready — the membership test is a
substring match on "Interested", which "Called - Not Interested" satisfies. -/
theorem ready_not_interested_counterexample :
    get_contact_status storeNotInterested 0 = "Called - Not Interested" ∧
    0 ∈ ready_candidates storeNotInterested ∧
    summary_ready_count storeNotInterested = 1 := by
  refine ⟨by decide, by decide, by decide⟩

/-- C6 amended: a candidate is onboarding-ready (ready list and summary count
alike) iff it is shortlisted, has an entry in the contact-status map, and the
stored status contains the substring "Interested" — a test that holds for
"Called - Interested" but also for "Called - Not Interested", so a shortlisted
candidate whose status is "Called - Not Interested" is counted ready too. -/
theorem ready_candidates_substring_test (s : StatusStore) (id : Nat) :
    (id ∈ ready_candidates s ↔
      id ∈ s.shortlisted ∧ mapHasKey s.contact_status id = true ∧
      strContains (get_contact_status s id) "Interested" = true) ∧
    summary_ready_count s = (ready_candidates s).card ∧
    strContains "Called - Interested" "Interested" = true ∧
    strContains "Called - Not Interested" "Interested" = true := by
  refine ⟨?_, rfl, by decide, by decide⟩
  unfold ready_candidates
  simp [Finset.mem_filter, and_assoc]

theorem setCol_fresh (row : List (String × String)) (c v : String)
    (h : row.lookup c = none) :
    setCol row c v = row ++ [(c, v)] ∧
    colNames (setCol row c v) = colNames row ++ [c] ∧
    ∀ c', (row.lookup c').isSome = true →
      (setCol row c v).lookup c' = row.lookup c' := by
  have he : setCol row c v = row ++ [(c, v)] := by
    unfold setCol
    rw [h]
    rfl
  refine ⟨he, ?_, ?_⟩
  · rw [he]
    simp [colNames]
  · intro c' hc'
    rw [he, List.lookup_append]
    rcases hs : row.lookup c' with _ | x
    · rw [hs] at hc'
      simp at hc'
    · rfl

theorem lookup_append_single_ne {β : Type} (l : List (String × β)) (c c' : String)
    (v : β) (h : l.lookup c' = none) (hne : c' ≠ c) :
    (l ++ [(c, v)]).lookup c' = none := by
  rw [List.lookup_append, h]
  have hb : (c' == c) = false := beq_eq_false_iff_ne.mpr hne
  simp [List.lookup_cons, hb]

/-- C9: the full-report export keeps every original row and appends exactly the
four derived columns Status, Contact_Status, Rating and Interview_Date on the
right, modifying no original column — so re-importing the exported report reads
back the original value of every pre-existing column of every candidate. The
hypotheses say the four derived names are not original columns, which holds
for the application's import schema. -/
theorem full_report_round_trip (s : StatusStore) (r : Candidate)
    (h1 : r.fields.lookup "Status" = none)
    (h2 : r.fields.lookup "Contact_Status" = none)
    (h3 : r.fields.lookup "Rating" = none)
    (h4 : r.fields.lookup "Interview_Date" = none) :
    (∀ df : List Candidate, fullReport df s = df.map (reportRow s)) ∧
    colNames (reportRow s r) = colNames r.fields ++
      ["Status", "Contact_Status", "Rating", "Interview_Date"] ∧
    ∀ c, (r.fields.lookup c).isSome = true →
      reimportField (reportRow s r) c = r.fields.lookup c := by
  obtain ⟨e1, n1, p1⟩ := setCol_fresh r.fields "Status" (get_status s r.id) h1
  have h2' : (setCol r.fields "Status" (get_status s r.id)).lookup
      "Contact_Status" = none := by
    rw [e1]
    exact lookup_append_single_ne _ _ _ _ h2 (by decide)
  obtain ⟨e2, n2, p2⟩ := setCol_fresh _ "Contact_Status" (get_contact_status s r.id) h2'
  have h3' : (setCol (setCol r.fields "Status" (get_status s r.id))
      "Contact_Status" (get_contact_status s r.id)).lookup "Rating" = none := by
    rw [e2, e1]
    exact lookup_append_single_ne _ _ _ _
      (lookup_append_single_ne _ _ _ _ h3 (by decide)) (by decide)
  obtain ⟨e3, n3, p3⟩ := setCol_fresh _ "Rating" (toString (ratingOf s r.id)) h3'
  have h4' : (setCol (setCol (setCol r.fields "Status" (get_status s r.id))
      "Contact_Status" (get_contact_status s r.id))
      "Rating" (toString (ratingOf s r.id))).lookup "Interview_Date" = none := by
    rw [e3, e2, e1]
    exact lookup_append_single_ne _ _ _ _
      (lookup_append_single_ne _ _ _ _
        (lookup_append_single_ne _ _ _ _ h4 (by decide)) (by decide)) (by decide)
  obtain ⟨e4, n4, p4⟩ := setCol_fresh _ "Interview_Date" (interviewDateOf s r.id) h4'
  refine ⟨fun _ => rfl, ?_, ?_⟩
  · show colNames (setCol (setCol (setCol (setCol r.fields "Status" _)
      "Contact_Status" _) "Rating" _) "Interview_Date" _) = _
    rw [n4, n3, n2, n1]
    simp
  · intro c hc
    have hc1 : ((setCol r.fields "Status" (get_status s r.id)).lookup c).isSome =
        true := by rw [p1 c hc]; exact hc
    have hc2 : ((setCol (setCol r.fields "Status" (get_status s r.id))
        "Contact_Status" (get_contact_status s r.id)).lookup c).isSome = true := by
      rw [p2 c hc1]; exact hc1
    have hc3 : ((setCol (setCol (setCol r.fields "Status" (get_status s r.id))
        "Contact_Status" (get_contact_status s r.id))
        "Rating" (toString (ratingOf s r.id))).lookup c).isSome = true := by
      rw [p3 c hc2]; exact hc2
    show (setCol (setCol (setCol (setCol r.fields "Status" _)
      "Contact_Status" _) "Rating" _) "Interview_Date" _).lookup c = _
    rw [p4 c hc3, p3 c hc2, p2 c hc1, p1 c hc]

/-- Closed instance of `full_report_round_trip` at a concrete candidate:
the Gender column reads back unchanged from the exported row. -/
theorem full_report_round_trip_witness :
    cand0.fields.lookup "Status" = none ∧
    reimportField (reportRow initialStatus cand0) "Gender" =
      cand0.fields.lookup "Gender" :=
  ⟨by decide,
   (full_report_round_trip initialStatus cand0 (by decide) (by decide) (by decide)
      (by decide)).2.2 "Gender" (by decide)⟩

theorem mapSet_hasKey_mono {α : Type} (m : List (Nat × α)) (k k' : Nat) (v : α)
    (h : mapHasKey m k' = true) : mapHasKey (mapSet m k v) k' = true := by
  unfold mapSet
  split
  · unfold mapHasKey at h ⊢
    rw [List.any_map]
    rw [List.any_eq_true] at h ⊢
    obtain ⟨p, hp, hbeq⟩ := h
    refine ⟨p, hp, ?_⟩
    simp only [Function.comp]
    split
    · rename_i hpk
      have hk : p.1 = k := by simpa using hpk
      rw [← hk]
      exact hbeq
    · exact hbeq
  · unfold mapHasKey at h ⊢
    rw [List.any_append, h]
    rfl

theorem mapSet_length_le {α : Type} (m : List (Nat × α)) (k : Nat) (v : α) :
    m.length ≤ (mapSet m k v).length := by
  unfold mapSet
  split
  · simp
  · simp

theorem shortlistAll_contact_status (ids : List Nat) (s : StatusStore) :
    (shortlistAll s ids).contact_status = s.contact_status :=
  foldl_preserve shortlist (fun t => t.contact_status = s.contact_status)
    (fun _ _ h => h) ids s rfl

theorem rejectAll_contact_status (ids : List Nat) (s : StatusStore) :
    (rejectAll s ids).contact_status = s.contact_status :=
  foldl_preserve reject (fun t => t.contact_status = s.contact_status)
    (fun _ _ h => h) ids s rfl

theorem resetPendingAll_contact_status (ids : List Nat) (s : StatusStore) :
    (resetPendingAll s ids).contact_status = s.contact_status :=
  foldl_preserve resetToPending (fun t => t.contact_status = s.contact_status)
    (fun _ _ h => h) ids s rfl

theorem autoRateAll_contact_status (rows : List (Nat × String)) (s : StatusStore) :
    (autoRateAll s rows).contact_status = s.contact_status := by
  refine foldl_preserve _ (fun t => t.contact_status = s.contact_status) ?_ rows s rfl
  intro t p h
  rcases hl : rating_map.lookup p.2 with _ | r <;> simpa [hl] using h

theorem setRatingHandler_contact_status (s : StatusStore) (id r : Nat) :
    (setRatingHandler s id r).contact_status = s.contact_status := by
  unfold setRatingHandler
  split <;> rfl

theorem save_remark_contact_status (s : StatusStore) (id : Nat) (text now : String) :
    (save_remark_button s id text now).1.contact_status = s.contact_status := by
  unfold save_remark_button
  split <;> rfl

theorem contactSelect_contact_mono (s : StatusStore) (id : Nat) (v : String) :
    (∀ k, mapHasKey s.contact_status k = true →
      mapHasKey (contactSelectHandler s id v).contact_status k = true) ∧
    s.contact_status.length ≤ (contactSelectHandler s id v).contact_status.length := by
  unfold contactSelectHandler
  split
  · exact ⟨fun _ h => h, le_rfl⟩
  · exact ⟨fun _ h => mapSet_hasKey_mono _ _ _ _ h, mapSet_length_le _ _ _⟩

theorem markAllContact_contact_mono (ids : List Nat) (v : String) :
    ∀ s : StatusStore,
      (∀ k, mapHasKey s.contact_status k = true →
        mapHasKey (markAllContact s ids v).contact_status k = true) ∧
      s.contact_status.length ≤ (markAllContact s ids v).contact_status.length := by
  induction ids with
  | nil => intro s; exact ⟨fun _ h => h, le_rfl⟩
  | cons a l ih =>
      intro s
      have hstep := ih { s with contact_status := mapSet s.contact_status a v }
      constructor
      · intro k h
        exact hstep.1 k (mapSet_hasKey_mono _ _ _ _ h)
      · exact le_trans (mapSet_length_le s.contact_status a v) hstep.2

/-- C10: within one dataset session no operation other than the
"Upload New File" full wipe ever removes an entry from the contact-status map —
every stored key survives every non-wipe step (including writing a status back
to "Not Contacted", the bulk mark-as-contacted actions, and Reset All
Selections), and the Contacted aggregate count (the size of the map) never
decreases; only the full wipe empties the map. -/
theorem contact_map_never_shrinks :
    (∀ s t : StatusStore, NonWipeStep s t →
      (∀ k, mapHasKey s.contact_status k = true →
        mapHasKey t.contact_status k = true) ∧
      s.contact_status.length ≤ t.contact_status.length) ∧
    ∀ s : StatusStore, (clearAllStatus s).contact_status = [] := by
  constructor
  · intro s t hstep
    cases hstep with
    | shortlist id => exact ⟨fun _ h => h, le_rfl⟩
    | reject id => exact ⟨fun _ h => h, le_rfl⟩
    | shortlistAll ids =>
        rw [shortlistAll_contact_status]
        exact ⟨fun _ h => h, le_rfl⟩
    | rejectAll ids =>
        rw [rejectAll_contact_status]
        exact ⟨fun _ h => h, le_rfl⟩
    | resetPendingAll ids =>
        rw [resetPendingAll_contact_status]
        exact ⟨fun _ h => h, le_rfl⟩
    | contactSelect id v => exact contactSelect_contact_mono s id v
    | markAllContact ids v => exact markAllContact_contact_mono ids v s
    | setRating id r =>
        rw [setRatingHandler_contact_status]
        exact ⟨fun _ h => h, le_rfl⟩
    | autoRate rows =>
        rw [autoRateAll_contact_status]
        exact ⟨fun _ h => h, le_rfl⟩
    | schedule id d => exact ⟨fun _ h => h, le_rfl⟩
    | cancel id => exact ⟨fun _ h => h, le_rfl⟩
    | saveRemark id text now =>
        rw [save_remark_contact_status]
        exact ⟨fun _ h => h, le_rfl⟩
    | resetAll => exact ⟨fun _ h => h, le_rfl⟩
  · intro s
    rfl

/-- Store with candidate 0 marked "Email Sent". -/
def storeES : StatusStore := contactSelectHandler initialStatus 0 "Email Sent"

/-- Closed instance of `contact_map_never_shrinks`: setting candidate 0's
status back to "Not Contacted" keeps its map entry and does not shrink the
map. -/
theorem contact_map_never_shrinks_witness :
    mapHasKey (contactSelectHandler storeES 0 "Not Contacted").contact_status 0 =
      true ∧
    storeES.contact_status.length ≤
      (contactSelectHandler storeES 0 "Not Contacted").contact_status.length :=
  ⟨(contact_map_never_shrinks.1 storeES _
      (NonWipeStep.contactSelect storeES 0 "Not Contacted")).1 0 (by decide),
   (contact_map_never_shrinks.1 storeES _
      (NonWipeStep.contactSelect storeES 0 "Not Contacted")).2⟩

end App2
